import Mathlib

/-!
Shallow embedding of the tomato growth-stage classifier
(`app.py`, `predict.py`, `cleanup.py`, classifier contract from `train_model.py`).

Machine reals (numpy float32) are modelled as exact rationals; 8-bit image
channels as naturals bounded by 255.  Python exceptions are modelled with
`Except String`: a raised exception is `Except.error msg` where `msg` is
`str(e)`.  The once-at-startup state (whether the Keras model loaded) and the
two external collaborators (PIL/Keras image decoding, `model.predict`) are an
explicit environment record threaded through `predict_growth_stage`.
-/

namespace Tomato

/-- A decoded raster image as produced by PIL: a height x width grid of
3-channel pixels, each channel an 8-bit value (hence at most 255).  The
channel accessor is total; only values at in-range coordinates are ever
sampled by the resize. -/
structure RawImage where
  height : Nat
  width : Nat
  pixel : Nat → Nat → Nat → Nat
  pixel_le : ∀ y x c, pixel y x c ≤ 255

/-- `img_width, img_height = 224, 224` (app.py line 14, predict.py line 8,
train_model.py line 9). -/
def img_width : Nat := 224

/-- See `img_width`. -/
def img_height : Nat := 224

/-- A 3-d numeric array (height x width x channels). -/
abbrev Tensor3 := List (List (List ℚ))

/-- A 4-d numeric array (batch x height x width x channels). -/
abbrev Tensor4 := List (List (List (List ℚ)))

/-- The resampling step of `image.load_img(path, target_size=(224, 224))`:
Keras' default interpolation is nearest-neighbour, so output coordinate
`(y, x)` samples the source pixel at `(y*height/224, x*width/224)`
(integer division; the exact index map of the resampler is irrelevant to
the stated properties, which only need that every output channel value is
some source channel value). -/
def resize_nearest (img : RawImage) (y x c : Nat) : Nat :=
  img.pixel (y * img.height / img_height) (x * img.width / img_width) c

/-- `image.img_to_array` applied to the 224x224 image produced by
`load_img`: a 224x224x3 array of floats carrying the 8-bit channel values. -/
def img_to_array (img : RawImage) : Tensor3 :=
  (List.range img_height).map fun y =>
    (List.range img_width).map fun x =>
      (List.range 3).map fun c => ((resize_nearest img y x c : ℚ))

/-- `np.expand_dims(img_array, axis=0)`: add a leading batch axis of size 1. -/
def expand_dims (t : Tensor3) : Tensor4 := [t]

/-- `img_array /= 255.0` (app.py line 129, predict.py line 17). -/
def tensor_div_255 (t : Tensor4) : Tensor4 :=
  t.map (List.map (List.map (List.map (fun v => v / 255))))

/-- `preprocess_image` (predict.py lines 13-18; inlined at app.py lines
126-129), applied to an already-decoded image: resize to 224x224, convert
to array, add batch axis, normalise to [0,1].  The fallible decoding side
of `image.load_img` lives in `Env.load_img`. -/
def preprocess_image (img : RawImage) : Tensor4 :=
  tensor_div_255 (expand_dims (img_to_array img))

/-- numpy basic indexing `a[i]`, raising `IndexError` when out of range. -/
def np_index {α : Type} (a : List α) (i : Nat) : Except String α :=
  match a[i]? with
  | some v => Except.ok v
  | none => Except.error ("index " ++ toString i ++
      " is out of bounds for axis 0 with size " ++ toString a.length)

/-- Recursive core of `np.argmax` on a non-empty 1-d array: the index of the
first occurrence of the maximum (a later element replaces the current best
only when strictly greater). -/
def argmax_core : List ℚ → Nat
  | [] => 0
  | [_] => 0
  | x :: y :: ys =>
    if x < (y :: ys).getD (argmax_core (y :: ys)) 0 then argmax_core (y :: ys) + 1 else 0

/-- `np.argmax` (app.py line 138, predict.py line 25): first index of the
maximum; raises `ValueError` on an empty sequence. -/
def np_argmax (l : List ℚ) : Except String Nat :=
  if l.isEmpty then
    Except.error "attempt to get argmax of an empty sequence"
  else Except.ok (argmax_core l)

/-- Python `dict` lookup `d[k]` on an insertion-ordered int-keyed dict,
raising `KeyError` when the key is absent (`str(KeyError(k))` is the repr
of the key). -/
def dict_get {α : Type} (d : List (Nat × α)) (k : Nat) : Except String α :=
  match d.find? (fun p => p.1 == k) with
  | some p => Except.ok p.2
  | none => Except.error (toString k)

/-- `class_labels` (app.py lines 16-21): the insertion-ordered dict mapping
each class index to its human-readable stage name. -/
def class_labels : List (Nat × String) :=
  [(0, "Early_Vegetative 🌿"),
   (1, "Flowering_Initiation 🌼"),
   (2, "Fruiting_and_Ripening 🍅"),
   (3, "Germination_and_Seedling 🌱")]

/-- One entry of `care_instructions` (app.py lines 24-106): title,
description, and the ordered do / dont advisory lists. -/
structure CareInfo where
  title : String
  description : String
  doItems : List String
  dontItems : List String
deriving DecidableEq, Repr

/-- `care_instructions` (app.py lines 24-106): the static care catalog,
one record per class index, insertion-ordered. -/
def care_instructions : List (Nat × CareInfo) :=
  [(0, { title := "Early Vegetative Stage Care 🌿",
         description := "Your tomato plant is in its early vegetative growth phase, focusing on developing strong stems and leaves.",
         doItems :=
           ["💧 Water regularly but avoid overwatering - soil should be moist, not soggy",
            "☀️ Provide 6-8 hours of direct sunlight daily",
            "🌡️ Maintain temperature between 65-75°F (18-24°C)",
            "💨 Ensure good air circulation around the plant",
            "🪴 Apply balanced fertilizer (10-10-10 or 14-14-14) every 2 weeks",
            "✂️ Start gentle pruning of lower leaves touching the soil",
            "🏗️ Begin staking or caging for future support"],
         dontItems :=
           ["❌ Don\x27t use high-nitrogen fertilizers exclusively",
            "❌ Avoid getting water on leaves (causes fungal diseases)",
            "❌ Don\x27t transplant during extreme weather",
            "❌ Avoid heavy pruning at this stage",
            "❌ Don\x27t let soil completely dry out between waterings"] }),
   (1, { title := "Flowering Initiation Stage Care 🌼",
         description := "Your plant is starting to flower! This is a critical stage that determines fruit production.",
         doItems :=
           ["🐝 Encourage pollination by gently shaking flowers daily",
            "💧 Water consistently - stress can cause flower drop",
            "🌡️ Maintain steady temperature (avoid sudden changes)",
            "🪴 Switch to low-nitrogen, high-phosphorus fertilizer",
            "✂️ Remove suckers (shoots between main stem and branches)",
            "🏗️ Ensure strong support structure is in place",
            "👀 Monitor for early pest signs (aphids, whiteflies)"],
         dontItems :=
           ["❌ Don\x27t over-fertilize with nitrogen (reduces flowering)",
            "❌ Avoid disturbing roots during this sensitive period",
            "❌ Don\x27t let plants experience water stress",
            "❌ Avoid excessive pruning of flower clusters",
            "❌ Don\x27t use pesticides that harm beneficial pollinators"] }),
   (2, { title := "Fruiting and Ripening Stage Care 🍅",
         description := "Congratulations! Your plant is producing fruits. Focus on supporting healthy fruit development.",
         doItems :=
           ["💧 Maintain consistent, deep watering (1-2 inches per week)",
            "🪴 Use high-potassium fertilizer to support fruit development",
            "🏗️ Provide strong support for heavy fruit-laden branches",
            "☀️ Ensure fruits get adequate sunlight for proper ripening",
            "✂️ Prune lower leaves and non-productive branches",
            "👀 Monitor for fruit diseases (blight, cracking, blossom end rot)",
            "🔄 Harvest ripe fruits regularly to encourage continued production"],
         dontItems :=
           ["❌ Don\x27t let soil dry out completely (causes blossom end rot)",
            "❌ Avoid irregular watering patterns",
            "❌ Don\x27t over-water (can cause fruit cracking)",
            "❌ Avoid high-nitrogen fertilizers (reduces fruit quality)",
            "❌ Don\x27t harvest fruits too early - let them ripen on vine when possible"] }),
   (3, { title := "Germination and Seedling Stage Care 🌱",
         description := "Your tomato is just starting its journey! This delicate stage requires gentle care and attention.",
         doItems :=
           ["💧 Keep soil consistently moist but not waterlogged",
            "🌡️ Maintain warm temperature (70-80°F / 21-27°C)",
            "💡 Provide bright, indirect light (14-16 hours daily)",
            "🌱 Use seed starting mix or well-draining potting soil",
            "🔄 Turn seedlings daily if using artificial lights",
            "🪴 Start diluted fertilizer once true leaves appear",
            "🌬️ Gradually introduce to outdoor conditions (hardening off)"],
         dontItems :=
           ["❌ Don\x27t expose to direct sunlight immediately",
            "❌ Avoid overwatering (causes damping-off disease)",
            "❌ Don\x27t use regular garden soil for seedlings",
            "❌ Avoid disturbing roots unnecessarily",
            "❌ Don\x27t transplant outdoors until night temperatures stay above 50°F (10°C)",
            "❌ Avoid strong fertilizers on young seedlings"] })]

/-- Python `:.1f` float formatting, on exact rationals: round to one decimal
place (a deterministic stand-in for the binary-float rounding, which no
stated property depends on). -/
def fmt1 (q : ℚ) : String :=
  let n : ℤ := round (q * 10)
  (if n < 0 then "-" else "") ++ toString (n.natAbs / 10) ++ "." ++ toString (n.natAbs % 10)

/-- Python `str(float)` interpolation (`\x7bconf_pct\x7d` in the f-string):
an opaque deterministic rendering of the number; no stated property
depends on its digits. -/
def py_float_repr (q : ℚ) : String := toString q

/-- `result_text` (app.py line 147). -/
def render_result_text (predicted_label : String) (max_confidence : ℚ) : String :=
  "🎯 **Predicted Stage:** " ++ predicted_label ++ "\n📊 **Confidence:** " ++
    fmt1 (max_confidence * 100) ++ "%"

/-- One iteration of the confidence-breakdown loop (app.py lines 153-178),
given the confidence already read from the array: the markup block for one
class row.  (`bar_width` at line 155 is computed but unused in the markup.) -/
def breakdown_row (predicted_class_index class_idx : Nat) (label : String) (conf : ℚ) : String :=
  let conf_pct := conf * 100
  let bar_color := if class_idx == predicted_class_index then
      "linear-gradient(90deg, #4CAF50, #45a049)" else "linear-gradient(90deg, #e0e0e0, #d0d0d0)"
  let text_color := if class_idx == predicted_class_index then "#2d5016" else "#666"
  let weight := if class_idx == predicted_class_index then "bold" else "normal"
  let border := if class_idx == predicted_class_index then "2px solid #4CAF50" else "1px solid #ddd"
  "\n            <div style=\x27margin: 15px 0; padding: 12px; border: " ++ border ++
  "; border-radius: 8px; background: #fafafa;\x27>\n                <div style=\x27display: flex; justify-content: space-between; align-items: center; margin-bottom: 8px;\x27>\n                    <span style=\x27font-weight: " ++
  weight ++ "; color: " ++ text_color ++ "; font-size: 16px;\x27>" ++ label ++
  "</span>\n                    <span style=\x27font-weight: bold; color: " ++ text_color ++
  "; font-size: 16px;\x27>" ++ fmt1 conf_pct ++
  "%</span>\n                </div>\n                <div style=\x27width: 100%; height: 12px; background-color: #f0f0f0; border-radius: 6px; overflow: hidden;\x27>\n                    <div style=\x27width: " ++
  py_float_repr conf_pct ++ "%; height: 100%; background: " ++ bar_color ++
  "; transition: width 0.5s ease; border-radius: 6px;\x27></div>\n                </div>\n            </div>\n            "

/-- The data gathered by the confidence-breakdown loop (app.py lines
153-154): for each catalog entry in order, its index, label and
`confidences[class_idx]` — which raises `IndexError` when the index is out
of the array's range. -/
def confidence_entries (confidences : List ℚ) : Except String (List (Nat × String × ℚ)) :=
  class_labels.mapM (fun p => do
    let conf ← np_index confidences p.1
    pure (p.1, p.2, conf))

/-- `confidence_html` (app.py lines 150-180): header, one block per catalog
entry in order, closing tag. -/
def build_confidence_html (confidences : List ℚ) (predicted_class_index : Nat) :
    Except String String := do
  let entries ← confidence_entries confidences
  pure ("<div style=\x27background: white; padding: 20px; border-radius: 15px; box-shadow: 0 4px 6px rgba(0,0,0,0.1); margin: 10px 0;\x27>" ++
    "<h3 style=\x27color: #2d5016; margin-bottom: 15px; text-align: center;\x27>📈 Confidence Analysis</h3>" ++
    String.join (entries.map (fun e => breakdown_row predicted_class_index e.1 e.2.1 e.2.2)) ++
    "</div>")

/-- `care_html` (app.py lines 184-215): markup built from one catalog
record — title, description, then the do-list and dont-list items. -/
def render_care_html (care_info : CareInfo) : String :=
  "\n        <div style=\x27background: linear-gradient(135deg, #f8f9fa, #e9ecef); padding: 25px; border-radius: 15px; box-shadow: 0 6px 12px rgba(0,0,0,0.1); margin: 15px 0;\x27>\n            <h2 style=\x27color: #2d5016; margin-bottom: 15px; text-align: center; font-size: 24px;\x27>" ++
  care_info.title ++
  "</h2>\n            <p style=\x27color: #555; font-size: 16px; text-align: center; margin-bottom: 25px; font-style: italic;\x27>" ++
  care_info.description ++
  "</p>\n            \n            <div style=\x27display: grid; grid-template-columns: 1fr 1fr; gap: 20px; margin-top: 20px;\x27>\n                <div style=\x27background: #d4edda; padding: 20px; border-radius: 12px; border-left: 5px solid #28a745;\x27>\n                    <h3 style=\x27color: #155724; margin-bottom: 15px; font-size: 18px;\x27>✅ What TO DO:</h3>\n                    <ul style=\x27color: #155724; line-height: 1.8; padding-left: 0; list-style: none;\x27>\n        " ++
  String.join (care_info.doItems.map (fun item =>
    "<li style=\x27margin: 8px 0; padding: 5px 0;\x27>• " ++ item ++ "</li>")) ++
  "\n                    </ul>\n                </div>\n                \n                <div style=\x27background: #f8d7da; padding: 20px; border-radius: 12px; border-left: 5px solid #dc3545;\x27>\n                    <h3 style=\x27color: #721c24; margin-bottom: 15px; font-size: 18px;\x27>🚫 What NOT TO DO:</h3>\n                    <ul style=\x27color: #721c24; line-height: 1.8; padding-left: 0; list-style: none;\x27>\n        " ++
  String.join (care_info.dontItems.map (fun item =>
    "<li style=\x27margin: 8px 0; padding: 5px 0;\x27>• " ++ item ++ "</li>")) ++
  "\n                    </ul>\n                </div>\n            </div>\n        </div>\n        "

/-- The process-level state and external collaborators of app.py:
`model_loaded` (lines 7-12, set once at startup), the fallible decoding
side of `image.load_img` (PIL: `ImageNotFoundError` / `UnsupportedImageError`
surface here), and `model.predict` (the opaque Keras classifier). -/
structure Env where
  model_loaded : Bool
  load_img : String → Except String RawImage
  model_predict : Tensor4 → Except String (List (List ℚ))

/-- The body of the `try` block of `predict_growth_stage` (app.py lines
124-217), in exception-as-`Except` form: decode, preprocess, predict,
take row 0, argmax, read the max confidence, look the label up, build the
three output strings.  Any `Except.error` here is what the `except` arm
at lines 219-220 catches. -/
def predict_growth_stage_try (env : Env) (img_file : String) :
    Except String (String × String × String) := do
  let img ← env.load_img img_file
  let img_array := preprocess_image img
  let prediction ← env.model_predict img_array
  let confidences ← np_index prediction 0
  let predicted_class_index ← np_argmax confidences
  let max_confidence ← np_index confidences predicted_class_index
  let predicted_label ← dict_get class_labels predicted_class_index
  let result_text := render_result_text predicted_label max_confidence
  let confidence_html ← build_confidence_html confidences predicted_class_index
  let care_info ← dict_get care_instructions predicted_class_index
  let care_html := render_care_html care_info
  pure (result_text, confidence_html, care_html)

/-- `predict_growth_stage` (app.py lines 108-220): the Inference
Orchestrator.  Checks the startup load flag, then the missing-input case,
then runs the `try` body, converting any raised error into the
`"❌ An error occurred: ..."` triple. -/
def predict_growth_stage (env : Env) (img_file : Option String) :
    String × String × String :=
  if env.model_loaded = false then
    ("❌ Model not loaded. Please check if the model file exists.", "", "")
  else
    match img_file with
    | none => ("📤 Please upload an image first.", "", "")
    | some path =>
      match predict_growth_stage_try env path with
      | Except.ok r => r
      | Except.error e => ("❌ An error occurred: " ++ e, "", "")

/-- `valid_extensions` (cleanup.py line 8). -/
def valid_extensions : List String := [".jpg", ".jpeg", ".png"]

/-- Python `str.lower()` (ASCII case-folding as used on file names). -/
def py_lower (s : String) : String := s.map Char.toLower

/-- `file.lower().endswith(valid_extensions)` (cleanup.py line 19): does the
lower-cased name end with any of the listed extensions? -/
def endswith_any (name : String) : Bool :=
  valid_extensions.any (fun ext => ext.data.isSuffixOf (py_lower name).data)

/-- One file yielded by the `os.walk` of cleanup.py: its basename (as
tested against the extension list), its joined path, and whether
`Image.open` + `img.verify()` succeeds on it. -/
structure FSFile where
  name : String
  path : String
  verifies : Bool
deriving DecidableEq, Repr

/-- The removal condition of `cleanup_corrupt_images` (cleanup.py lines
19-27): the name has a valid image extension and open/verify raises. -/
def cleanup_removes (f : FSFile) : Bool :=
  endswith_any f.name && !f.verifies

/-- `cleanup_corrupt_images` (cleanup.py lines 11-27), as the transformation
it performs on the walked file set: every file satisfying the removal
condition is deleted via `os.remove`; every other file is untouched. -/
def cleanup_corrupt_images (files : List FSFile) : List FSFile :=
  files.filter (fun f => !cleanup_removes f)

/-- A concrete all-black 224x224 decoded image, for evaluating the pipeline. -/
def black_image : RawImage where
  height := 224
  width := 224
  pixel := fun _ _ _ => 0
  pixel_le := fun _ _ _ => by norm_num

/-- Concrete environment: the model loaded, but decoding every path raises
(the file is missing), so each call fails inside the `try` body. -/
def env_decode_fails : Env where
  model_loaded := true
  load_img := fun _ => Except.error "[Errno 2] No such file or directory"
  model_predict := fun _ => Except.ok [[1, 0, 0, 0]]

/-- Concrete environment: the model loaded and the classifier returns a
five-entry row whose argmax is 4 — an index outside the declared label
set, i.e. a classifier/catalog mismatch. -/
def env_five_scores : Env where
  model_loaded := true
  load_img := fun _ => Except.ok black_image
  model_predict := fun _ => Except.ok [[0, 0, 0, 0, 1]]

/-- Concrete environment: the model loaded and the classifier
deterministically returns the one-hot length-4 distribution with argmax 2. -/
def env_index2 : Env where
  model_loaded := true
  load_img := fun _ => Except.ok black_image
  model_predict := fun _ => Except.ok [[0, 0, 1, 0]]

/-- A concrete classifier output row with an internal tie (indices 1 and 2). -/
def sample_confidences : List ℚ := [1, 3, 3, 2]

/-- A concrete uniform length-4 distribution. -/
def uniform_confidences : List ℚ := [1/4, 1/4, 1/4, 1/4]

/-! ## Theorems -/

/-- `Except.ok` feeds its value to the rest of a `do` block. -/
theorem except_bind_ok {α β : Type} (a : α) (f : α → Except String β) :
    (Except.ok a >>= f : Except String β) = f a := rfl

/-- `Except.error` short-circuits the rest of a `do` block. -/
theorem except_bind_error {α β : Type} (e : String) (f : α → Except String β) :
    (Except.error e >>= f : Except String β) = Except.error e := rfl

/-- The argmax of a non-empty row is a valid index into it. -/
theorem argmax_core_lt_length : ∀ (l : List ℚ), l ≠ [] → argmax_core l < l.length := by
  intro l
  induction l with
  | nil => intro h; exact absurd rfl h
  | cons x xs ih =>
    intro _
    cases xs with
    | nil => simp [argmax_core]
    | cons y ys =>
      have h2 : argmax_core (y :: ys) < (y :: ys).length := ih (by simp)
      simp only [List.length_cons] at h2
      by_cases hx : x < (y :: ys).getD (argmax_core (y :: ys)) 0
      · simp only [argmax_core, if_pos hx, List.length_cons]
        omega
      · simp only [argmax_core, if_neg hx, List.length_cons]
        omega

/-- Every entry of the row is at most the entry at the argmax. -/
theorem argmax_core_le :
    ∀ (l : List ℚ) (j : Nat), j < l.length → l.getD j 0 ≤ l.getD (argmax_core l) 0 := by
  intro l
  induction l with
  | nil => intro j hj; simp at hj
  | cons x xs ih =>
    intro j hj
    cases xs with
    | nil =>
      cases j with
      | zero => simp [argmax_core]
      | succ j => simp at hj
    | cons y ys =>
      by_cases hx : x < (y :: ys).getD (argmax_core (y :: ys)) 0
      · simp only [argmax_core, if_pos hx]
        cases j with
        | zero => simpa using le_of_lt hx
        | succ j =>
          simp only [List.getD_cons_succ]
          exact ih j (by simpa using hj)
      · simp only [argmax_core, if_neg hx, List.getD_cons_zero]
        cases j with
        | zero => simp
        | succ j =>
          simp only [List.getD_cons_succ]
          exact le_trans (ih j (by simpa using hj)) (not_lt.mp hx)

/-- Entries strictly before the argmax are strictly below it: the argmax is
the FIRST occurrence of the maximum. -/
theorem argmax_core_first :
    ∀ (l : List ℚ) (j : Nat), j < argmax_core l → l.getD j 0 < l.getD (argmax_core l) 0 := by
  intro l
  induction l with
  | nil => intro j hj; simp [argmax_core] at hj
  | cons x xs ih =>
    intro j hj
    cases xs with
    | nil => simp [argmax_core] at hj
    | cons y ys =>
      by_cases hx : x < (y :: ys).getD (argmax_core (y :: ys)) 0
      · simp only [argmax_core, if_pos hx] at hj ⊢
        cases j with
        | zero => simpa using hx
        | succ j =>
          simp only [List.getD_cons_succ]
          exact ih j (by omega)
      · simp only [argmax_core, if_neg hx] at hj
        omega

/-- A key larger than every declared class index is absent from
`class_labels`, so the dict lookup raises `KeyError`. -/
theorem dict_get_class_labels_oob (i : Nat) (hi : 3 < i) :
    dict_get class_labels i = Except.error (toString i) := by
  have h0 : ((0 : Nat) == i) = false := beq_eq_false_iff_ne.mpr (by omega)
  have h1 : ((1 : Nat) == i) = false := beq_eq_false_iff_ne.mpr (by omega)
  have h2 : ((2 : Nat) == i) = false := beq_eq_false_iff_ne.mpr (by omega)
  have h3 : ((3 : Nat) == i) = false := beq_eq_false_iff_ne.mpr (by omega)
  simp [dict_get, class_labels, List.find?, h0, h1, h2, h3]

/-- Claim C1: if the Classifier failed to load at startup
(`model_loaded = false`), then for every input — a path or no input at
all — `predict_growth_stage` returns the "model unavailable" triple, and
the result is independent of the decoder and the classifier, i.e. neither
the Preprocessor nor the Classifier is invoked. -/
theorem model_unavailable_short_circuits (img_file : Option String)
    (d₁ d₂ : String → Except String RawImage)
    (p₁ p₂ : Tensor4 → Except String (List (List ℚ))) :
    predict_growth_stage ⟨false, d₁, p₁⟩ img_file
      = ("❌ Model not loaded. Please check if the model file exists.", "", "")
    ∧ predict_growth_stage ⟨false, d₁, p₁⟩ img_file
      = predict_growth_stage ⟨false, d₂, p₂⟩ img_file :=
  ⟨rfl, rfl⟩

/-- Claim C7: if the Classifier loaded successfully, `predict_growth_stage`
applied to no input (`none`) returns the "no input" triple, independently
of the decoder and the classifier — neither is invoked. -/
theorem no_input_short_circuits
    (d₁ d₂ : String → Except String RawImage)
    (p₁ p₂ : Tensor4 → Except String (List (List ℚ))) :
    predict_growth_stage ⟨true, d₁, p₁⟩ none
      = ("📤 Please upload an image first.", "", "")
    ∧ predict_growth_stage ⟨true, d₁, p₁⟩ none
      = predict_growth_stage ⟨true, d₂, p₂⟩ none :=
  ⟨rfl, rfl⟩

/-- Claim C2: whenever `np.argmax` returns index `i` for a classifier
output row, `i` is in range, the entry at `i` is a maximum of the row,
every entry strictly before `i` is strictly smaller (first occurrence wins
on ties), and reading the reported confidence `confidences[i]` yields
exactly the value at `i`. -/
theorem argmax_prediction_first_max (l : List ℚ) (i : Nat)
    (h : np_argmax l = Except.ok i) :
    i < l.length
    ∧ (∀ j, j < l.length → l.getD j 0 ≤ l.getD i 0)
    ∧ (∀ j, j < i → l.getD j 0 < l.getD i 0)
    ∧ np_index l i = Except.ok (l.getD i 0) := by
  have hne : l ≠ [] := by
    intro hl
    subst hl
    simp [np_argmax] at h
  have hB : l.isEmpty = false := by
    cases l with
    | nil => exact absurd rfl hne
    | cons a as => rfl
  have hiv : argmax_core l = i := by
    rw [np_argmax, hB] at h
    simpa using h
  subst hiv
  have hlt := argmax_core_lt_length l hne
  refine ⟨hlt, argmax_core_le l, argmax_core_first l, ?_⟩
  simp [np_index, List.getElem?_eq_getElem hlt, List.getD_eq_getElem l 0 hlt]

/-- Witness for C2 at the concrete tied row `[1, 3, 3, 2]`: the argmax is
index 1 (the first of the two tied maxima) and all parts of the claim hold
there. -/
theorem argmax_prediction_first_max_witness :
    np_argmax sample_confidences = Except.ok 1
    ∧ (1 < sample_confidences.length
      ∧ (∀ j, j < sample_confidences.length →
          sample_confidences.getD j 0 ≤ sample_confidences.getD 1 0)
      ∧ (∀ j, j < 1 → sample_confidences.getD j 0 < sample_confidences.getD 1 0)
      ∧ np_index sample_confidences 1 = Except.ok (sample_confidences.getD 1 0)) :=
  ⟨rfl, argmax_prediction_first_max sample_confidences 1 rfl⟩

/-- Claim C3: every failure raised inside the per-call `try` body —
decoding, preprocessing, inference, or any later step — is caught at the
orchestrator boundary and converted into the structured
"An error occurred" triple; `predict_growth_stage` is total, so no raw
exception reaches its caller. -/
theorem per_call_failures_converted (env : Env) (path : String) (e : String)
    (hm : env.model_loaded = true)
    (he : predict_growth_stage_try env path = Except.error e) :
    predict_growth_stage env (some path)
      = ("❌ An error occurred: " ++ e, "", "") := by
  simp [predict_growth_stage, hm, he]

/-- Witness for C3: in the concrete environment whose decoder always
raises a missing-file error, the call returns the converted error triple. -/
theorem per_call_failures_converted_witness :
    predict_growth_stage env_decode_fails (some "missing.jpg")
      = ("❌ An error occurred: [Errno 2] No such file or directory", "", "") :=
  per_call_failures_converted env_decode_fails "missing.jpg"
    "[Errno 2] No such file or directory" rfl rfl

/-- Claim C9: the dataset hygiene tool deletes a walked file exactly when
its name ends (case-insensitively) with one of the image extensions AND
opening/verifying it as an image fails; every other walked file survives
unchanged. -/
theorem cleanup_removes_iff (files : List FSFile) (f : FSFile) :
    f ∈ cleanup_corrupt_images files ↔
      f ∈ files ∧ ¬(endswith_any f.name = true ∧ f.verifies = false) := by
  simp [cleanup_corrupt_images, List.mem_filter, cleanup_removes]
  intro _
  constructor
  · rintro (h | h) he
    · rw [he] at h; exact absurd h (by simp)
    · exact h
  · intro h
    rcases hb : endswith_any f.name with _ | _
    · left; rfl
    · right; exact h hb

/-- A successful `np.argmax` call returns `argmax_core`, an index into the
row. -/
theorem np_argmax_ok (l : List ℚ) (i : Nat) (h : np_argmax l = Except.ok i) :
    argmax_core l = i ∧ i < l.length := by
  have hne : l ≠ [] := by
    intro hl
    subst hl
    simp [np_argmax] at h
  have hB : l.isEmpty = false := by
    cases l with
    | nil => exact absurd rfl hne
    | cons a as => rfl
  rw [np_argmax, hB] at h
  simp at h
  exact ⟨h, h ▸ argmax_core_lt_length l hne⟩

/-- A length-4 row is literally a four-element list. -/
theorem length_four_exists (l : List ℚ) (hlen : l.length = 4) :
    ∃ a b c d, l = [a, b, c, d] := by
  rcases l with _ | ⟨a, _ | ⟨b, _ | ⟨c, _ | ⟨d, _ | ⟨e, tl⟩⟩⟩⟩⟩ <;> simp at hlen
  exact ⟨a, b, c, d, rfl⟩

/-- Claim C5: for every decodable source image of any resolution, the
preprocessing pipeline (resize to 224x224, convert to array, add batch
axis, divide by 255) produces a tensor of exactly shape 1 x 224 x 224 x 3
whose values all lie in [0, 1]. -/
theorem preprocess_shape_and_range (img : RawImage) :
    (preprocess_image img).length = 1
    ∧ ∀ t ∈ preprocess_image img,
        t.length = 224
        ∧ ∀ row ∈ t, row.length = 224
          ∧ ∀ px ∈ row, px.length = 3
            ∧ ∀ v ∈ px, 0 ≤ v ∧ v ≤ 1 := by
  refine ⟨rfl, ?_⟩
  intro t ht
  have ht2 : t = (img_to_array img).map (List.map (List.map (fun v => v / 255))) := by
    simpa [preprocess_image, tensor_div_255, expand_dims] using ht
  subst ht2
  refine ⟨by simp [img_to_array, img_height], ?_⟩
  intro row hrow
  rw [img_to_array] at hrow
  rw [List.map_map] at hrow
  obtain ⟨y, hy, rfl⟩ := List.mem_map.mp hrow
  refine ⟨by simp [img_width], ?_⟩
  intro px hpx
  simp only [Function.comp_apply, List.map_map] at hpx
  obtain ⟨x, hx, rfl⟩ := List.mem_map.mp hpx
  refine ⟨by simp, ?_⟩
  intro v hv
  simp only [Function.comp_apply, List.map_map] at hv
  obtain ⟨c, hc, rfl⟩ := List.mem_map.mp hv
  simp only [Function.comp_apply]
  constructor
  · positivity
  · rw [div_le_one (by norm_num)]
    have hb : resize_nearest img y x c ≤ 255 := img.pixel_le _ _ _
    exact_mod_cast hb

/-- Claim C6: given the classifier contract (a length-4 distribution
summing to 1 — `Dense(4, activation=softmax)` in train_model.py), the
confidence-breakdown loop succeeds and gathers exactly one entry per
declared class label, in catalog index order 0,1,2,3, and the four listed
values sum exactly to 1. -/
theorem breakdown_entries_complete_and_sum_one (confidences : List ℚ)
    (hlen : confidences.length = 4) (hsum : confidences.sum = 1) :
    ∃ entries, confidence_entries confidences = Except.ok entries
      ∧ entries.map (fun e => e.1) = [0, 1, 2, 3]
      ∧ entries.map (fun e => e.2.1) = class_labels.map Prod.snd
      ∧ (entries.map (fun e => e.2.2)).sum = 1 := by
  obtain ⟨a, b, c, d, rfl⟩ := length_four_exists confidences hlen
  refine ⟨[(0, "Early_Vegetative 🌿", a), (1, "Flowering_Initiation 🌼", b),
    (2, "Fruiting_and_Ripening 🍅", c), (3, "Germination_and_Seedling 🌱", d)],
    rfl, rfl, rfl, ?_⟩
  simpa using hsum

/-- Witness for C6 at the concrete uniform distribution [1/4,1/4,1/4,1/4]. -/
theorem breakdown_entries_complete_and_sum_one_witness :
    uniform_confidences.length = 4 ∧ uniform_confidences.sum = 1
    ∧ ∃ entries, confidence_entries uniform_confidences = Except.ok entries
      ∧ entries.map (fun e => e.1) = [0, 1, 2, 3]
      ∧ entries.map (fun e => e.2.1) = class_labels.map Prod.snd
      ∧ (entries.map (fun e => e.2.2)).sum = 1 :=
  ⟨rfl, by norm_num [uniform_confidences],
    breakdown_entries_complete_and_sum_one uniform_confidences rfl
      (by norm_num [uniform_confidences])⟩

/-- Claim C10: `predict_growth_stage` always returns a triple of three
strings (by its type), and on every degraded or error path — model
unavailable, no input provided, or a caught per-call failure — the second
and third components (the confidence-breakdown markup and the
care-instructions markup) are the empty string. -/
theorem error_paths_empty_markup (env : Env) (input : Option String) :
    (env.model_loaded = false →
      predict_growth_stage env input
        = ("❌ Model not loaded. Please check if the model file exists.", "", ""))
    ∧ (env.model_loaded = true → input = none →
      predict_growth_stage env input = ("📤 Please upload an image first.", "", ""))
    ∧ (∀ path e, env.model_loaded = true → input = some path →
      predict_growth_stage_try env path = Except.error e →
      predict_growth_stage env input = ("❌ An error occurred: " ++ e, "", "")) := by
  refine ⟨?_, ?_, ?_⟩
  · intro hm
    simp [predict_growth_stage, hm]
  · intro hm hin
    subst hin
    simp [predict_growth_stage, hm]
  · intro path e hm hin he
    subst hin
    simp [predict_growth_stage, hm, he]

/-- Witness for C10 on the model-unavailable path. -/
theorem error_paths_empty_markup_witness :
    predict_growth_stage
        ⟨false, fun _ => Except.error "x", fun _ => Except.error "x"⟩ none
      = ("❌ Model not loaded. Please check if the model file exists.", "", "") :=
  (error_paths_empty_markup
    ⟨false, fun _ => Except.error "x", fun _ => Except.error "x"⟩ none).1 rfl

/-- Counterexample to claim C4: an out-of-catalog label does NOT escalate.
In the concrete environment whose classifier returns five scores with
argmax 4, the resulting `KeyError` is caught by the blanket `except` arm
and converted into the ordinary "An error occurred" triple — exactly the
same user-facing shape that an ordinary per-call failure (second
conjunct: a missing file) produces. -/
theorem unknown_label_swallowed_cex :
    predict_growth_stage env_five_scores (some "plant.jpg")
      = ("❌ An error occurred: 4", "", "")
    ∧ predict_growth_stage env_decode_fails (some "missing.jpg")
      = ("❌ An error occurred: [Errno 2] No such file or directory", "", "") :=
  ⟨rfl, rfl⟩

/-- Amended C4: a catalog lookup with a label outside the declared set
{0,1,2,3} raises `KeyError`, which the blanket per-call handler catches
and converts into the ordinary user-facing error result, exactly like any
other per-call failure; it is not escalated. -/
theorem unknown_label_converted_like_other_failures (env : Env) (path : String)
    (img : RawImage) (conf : List ℚ) (i : Nat)
    (hm : env.model_loaded = true)
    (hd : env.load_img path = Except.ok img)
    (hp : env.model_predict (preprocess_image img) = Except.ok [conf])
    (ha : np_argmax conf = Except.ok i)
    (hi : 3 < i) :
    predict_growth_stage env (some path)
      = ("❌ An error occurred: " ++ toString i, "", "") := by
  obtain ⟨-, hlt⟩ := np_argmax_ok conf i ha
  have hidx : np_index conf i = Except.ok (conf.getD i 0) := by
    simp [np_index, List.getElem?_eq_getElem hlt, List.getD_eq_getElem conf 0 hlt]
  have hkey : dict_get class_labels i = Except.error (toString i) :=
    dict_get_class_labels_oob i hi
  have h0 : np_index [conf] 0 = Except.ok conf := rfl
  have htry : predict_growth_stage_try env path = Except.error (toString i) := by
    simp only [predict_growth_stage_try, hd, except_bind_ok, hp, h0, ha, hidx, hkey,
      except_bind_error]
  simp [predict_growth_stage, hm, htry]

/-- Witness for the amended C4 in the concrete five-score environment. -/
theorem unknown_label_converted_witness :
    predict_growth_stage env_five_scores (some "plant.jpg")
      = ("❌ An error occurred: " ++ toString 4, "", "") :=
  unknown_label_converted_like_other_failures env_five_scores "plant.jpg"
    black_image [0, 0, 0, 0, 1] 4 rfl rfl rfl rfl (by omega)

/-- Claim C8: for every classifier output (under the length-4 classifier
contract) whose argmax is index `i`, the successful call's first component
is rendered from the catalog's label for `i` and the confidence at `i`,
and the attached care record is exactly the catalog's `care_instructions`
entry for `i`; in particular for `i = 2` the label is the index-2 label
and the care title is the catalog's index-2 title. -/
theorem argmax_label_care_roundtrip (env : Env) (path : String) (img : RawImage)
    (conf : List ℚ) (i : Nat)
    (hm : env.model_loaded = true)
    (hd : env.load_img path = Except.ok img)
    (hp : env.model_predict (preprocess_image img) = Except.ok [conf])
    (hlen : conf.length = 4)
    (ha : np_argmax conf = Except.ok i) :
    ∃ label care chtml,
      dict_get class_labels i = Except.ok label
      ∧ dict_get care_instructions i = Except.ok care
      ∧ build_confidence_html conf i = Except.ok chtml
      ∧ predict_growth_stage_try env path
          = Except.ok (render_result_text label (conf.getD i 0), chtml, render_care_html care)
      ∧ predict_growth_stage env (some path)
          = (render_result_text label (conf.getD i 0), chtml, render_care_html care)
      ∧ (i = 2 → label = "Fruiting_and_Ripening 🍅"
          ∧ care.title = "Fruiting and Ripening Stage Care 🍅") := by
  obtain ⟨-, hlt⟩ := np_argmax_ok conf i ha
  rw [hlen] at hlt
  obtain ⟨a, b, c, d, rfl⟩ := length_four_exists conf hlen
  have h0 : np_index [[a, b, c, d]] 0 = Except.ok [a, b, c, d] := rfl
  interval_cases i
  · refine ⟨_, _, _, rfl, rfl, rfl, ?_, ?_, by intro h; exact absurd h (by norm_num)⟩
    · simp only [predict_growth_stage_try, hd, except_bind_ok, hp, h0, ha]
      rfl
    · simp only [predict_growth_stage, predict_growth_stage_try, hm, hd, except_bind_ok,
        hp, h0, ha]
      rfl
  · refine ⟨_, _, _, rfl, rfl, rfl, ?_, ?_, by intro h; exact absurd h (by norm_num)⟩
    · simp only [predict_growth_stage_try, hd, except_bind_ok, hp, h0, ha]
      rfl
    · simp only [predict_growth_stage, predict_growth_stage_try, hm, hd, except_bind_ok,
        hp, h0, ha]
      rfl
  · refine ⟨_, _, _, rfl, rfl, rfl, ?_, ?_, fun _ => ⟨rfl, rfl⟩⟩
    · simp only [predict_growth_stage_try, hd, except_bind_ok, hp, h0, ha]
      rfl
    · simp only [predict_growth_stage, predict_growth_stage_try, hm, hd, except_bind_ok,
        hp, h0, ha]
      rfl
  · refine ⟨_, _, _, rfl, rfl, rfl, ?_, ?_, by intro h; exact absurd h (by norm_num)⟩
    · simp only [predict_growth_stage_try, hd, except_bind_ok, hp, h0, ha]
      rfl
    · simp only [predict_growth_stage, predict_growth_stage_try, hm, hd, except_bind_ok,
        hp, h0, ha]
      rfl

/-- Witness for C8: the concrete environment whose classifier returns
[0, 0, 1, 0] (argmax 2) yields the index-2 label and the
index-2 care record. -/
theorem argmax_label_care_roundtrip_witness :
    np_argmax [0, 0, 1, 0] = Except.ok 2
    ∧ ∃ label care chtml,
      dict_get class_labels 2 = Except.ok label
      ∧ dict_get care_instructions 2 = Except.ok care
      ∧ build_confidence_html [0, 0, 1, 0] 2 = Except.ok chtml
      ∧ predict_growth_stage_try env_index2 "fixture.jpg"
          = Except.ok (render_result_text label (([0, 0, 1, 0] : List ℚ).getD 2 0),
              chtml, render_care_html care)
      ∧ predict_growth_stage env_index2 (some "fixture.jpg")
          = (render_result_text label (([0, 0, 1, 0] : List ℚ).getD 2 0),
              chtml, render_care_html care)
      ∧ ((2 : Nat) = 2 → label = "Fruiting_and_Ripening 🍅"
          ∧ care.title = "Fruiting and Ripening Stage Care 🍅") :=
  ⟨rfl, argmax_label_care_roundtrip env_index2 "fixture.jpg" black_image
    [0, 0, 1, 0] 2 rfl rfl rfl rfl rfl⟩

end Tomato
